import Mathlib

/-!
Shallow embedding of the numeric core of the js-calcs repository:

* `Atmosphere` — US Standard Atmosphere 1976 evaluator (class `Atmosphere`
  in the atmosphere source file): constant tables from the constructor and
  the `update` method mapping a geometric altitude to temperature,
  pressure, density, speed of sound and viscosities plus a validity flag.
* `WGS84` — WGS84 ellipsoid constants with the forward transform
  `geo2wgs` and the Zhu closed-form inverse `wgs2geo`
  (from `src/js/calc_wgs84.js`).

JS `number` arithmetic is modelled by real numbers; layer resolution and
all guards are translated literally from the source, with the bounded
`for` loop of `update` unrolled into its seven comparisons.
-/

namespace Atmosphere

noncomputable section

/-- [kg/kmol] molecular weight of the 10 constituents (constructor `m_i`). -/
def m_i : Nat → ℝ
  | 0 => 28.0134        -- N2
  | 1 => 31.9988        -- O2
  | 2 => 39.948         -- Ar
  | 3 => 44.00995       -- CO2
  | 4 => 20.183         -- Ne
  | 5 => 4.0026         -- He
  | 6 => 83.8           -- Kr
  | 7 => 131.3          -- Xe
  | 8 => 16.04303       -- CH4
  | _ => 2.01594        -- H2

/-- [-] fractional volume of the 10 constituents (constructor `f_i`). -/
def f_i : Nat → ℝ
  | 0 => 0.78084        -- N2
  | 1 => 0.209476      -- O2
  | 2 => 0.00934       -- Ar
  | 3 => 0.000314      -- CO2
  | 4 => 0.00001818    -- Ne
  | 5 => 0.00000524    -- He
  | 6 => 0.00000114    -- Kr
  | 7 => 0.000000087   -- Xe
  | 8 => 0.000002      -- CH4
  | _ => 0.0000005     -- H2

/-- [kg/kmol] mean molecular weight, exactly the constructor's expression. -/
def m : ℝ :=
  ( m_i 0 * f_i 0
  + m_i 1 * f_i 1
  + m_i 2 * f_i 2
  + m_i 3 * f_i 3
  + m_i 4 * f_i 4
  + m_i 5 * f_i 5
  + m_i 6 * f_i 6
  + m_i 7 * f_i 7
  + m_i 8 * f_i 8
  + m_i 9 * f_i 9 )
  /
  ( f_i 0
  + f_i 1
  + f_i 2
  + f_i 3
  + f_i 4
  + f_i 5
  + f_i 6
  + f_i 7
  + f_i 8
  + f_i 9 )

/-- [J/(kmol*K)] universal gas constant. -/
def r : ℝ := 8.31432e3

/-- [K] Sutherland constant. -/
def s : ℝ := 110.0

/-- [kg/(s*m*K^0.5)] dynamic-viscosity constant. -/
def beta : ℝ := 1.458e-6

/-- [-] ratio of specific heats cp/cv. -/
def gamma : ℝ := 1.4

/-- [m/s^2] standard gravitational acceleration. -/
def wgs_g : ℝ := 9.80665

/-- [K] standard sea level temperature. -/
def t_0 : ℝ := 288.15

/-- [Pa] standard sea level pressure. -/
def p_0 : ℝ := 101325.0

/-- [kg/m^3] standard sea level density. -/
def rho_0 : ℝ := 1.225

/-- [m] layer-boundary altitudes (constructor array `h_b`). -/
def h_b : Nat → ℝ
  | 0 => 11000.0
  | 1 => 20000.0
  | 2 => 32000.0
  | 3 => 47000.0
  | 4 => 51000.0
  | 5 => 71000.0
  | _ => 84852.0

/-- [Pa] layer-boundary pressures (constructor array `p_b`). -/
def p_b : Nat → ℝ
  | 0 => 101325.0
  | 1 => 22632.0
  | 2 => 5474.8
  | 3 => 868.01
  | 4 => 110.9
  | 5 => 66.938
  | _ => 3.9564

/-- [K] layer-boundary temperatures (constructor array `t_b`). -/
def t_b : Nat → ℝ
  | 0 => 288.15
  | 1 => 216.65
  | 2 => 216.65
  | 3 => 228.65
  | 4 => 270.65
  | 5 => 270.65
  | _ => 214.65

/-- [K/m] layer temperature gradients (constructor array `l_b`). -/
def l_b : Nat → ℝ
  | 0 => -6.5e-3
  | 1 => 0.0
  | 2 => 1.0e-3
  | 3 => 2.8e-3
  | 4 => 0.0
  | 5 => -2.8e-3
  | _ => -2.0e-3

/-- Base-layer parameters resolved by `update` for one altitude, together
with the validity flag as left by the resolution phase. -/
structure LayerParams where
  hb : ℝ
  pb : ℝ
  tb : ℝ
  lb : ℝ
  valid : Bool

/-- The layer-resolution phase of `update`: seeds
`hb = h_b[5], pb = p_b[6], tb = t_b[6], lb = 0, valid = false`, the
troposphere branch for `alt < h_b[0]`, and the `i = 1..6` scan of the
source unrolled into its seven comparisons; when no comparison fires the
seeded values survive with `valid` still `false`. -/
def resolveLayer (alt : ℝ) : LayerParams :=
  if alt < h_b 0 then
    { hb := 0.0, pb := p_b 0, tb := t_0, lb := -(t_0 - t_b 1) / h_b 0, valid := true }
  else if alt < h_b 1 then
    { hb := h_b 0, pb := p_b 1, tb := t_b 1, lb := l_b 1, valid := true }
  else if alt < h_b 2 then
    { hb := h_b 1, pb := p_b 2, tb := t_b 2, lb := l_b 2, valid := true }
  else if alt < h_b 3 then
    { hb := h_b 2, pb := p_b 3, tb := t_b 3, lb := l_b 3, valid := true }
  else if alt < h_b 4 then
    { hb := h_b 3, pb := p_b 4, tb := t_b 4, lb := l_b 4, valid := true }
  else if alt < h_b 5 then
    { hb := h_b 4, pb := p_b 5, tb := t_b 5, lb := l_b 5, valid := true }
  else if alt < h_b 6 then
    { hb := h_b 5, pb := p_b 6, tb := t_b 6, lb := l_b 6, valid := true }
  else
    { hb := h_b 5, pb := p_b 6, tb := t_b 6, lb := 0.0, valid := false }

/-- Output state of one `update` call. -/
structure AtmosState where
  temp : ℝ
  press : ℝ
  dens : ℝ
  sound : ℝ
  visc : ℝ
  kinViscosity : ℝ
  valid : Bool

/-- The all-zero, invalid state every `update` call starts from. -/
def zeroState : AtmosState :=
  { temp := 0.0, press := 0.0, dens := 0.0, sound := 0.0, visc := 0.0,
    kinViscosity := 0.0, valid := false }

/-- `Atmosphere.update`: the out-of-range early return for
`alt > h_b[6]`, then layer resolution, then — only when `valid` was set —
temperature, the gradient-selected pressure branch, density, speed of
sound and the viscosities. -/
def update (alt : ℝ) : AtmosState :=
  if alt > h_b 6 then
    zeroState
  else
    let L := resolveLayer alt
    if L.valid then
      let delta_h := alt - L.hb
      let temp := L.tb + L.lb * delta_h
      let press :=
        if |L.lb| < 1.0e-6 then
          L.pb * Real.exp (-(wgs_g * m * delta_h) / (r * L.tb))
        else
          L.pb * (L.tb / temp) ^ ((wgs_g * m) / (r * L.lb))
      let dens := press * m / (r * temp)
      let sound := Real.sqrt ((gamma * r * temp) / m)
      let visc := beta * temp ^ ((3.0 : ℝ) / 2.0) / (temp + s)
      { temp := temp, press := press, dens := dens, sound := sound,
        visc := visc, kinViscosity := visc / dens, valid := true }
    else
      zeroState

/-- Mean molecular weight as the spec words it: the fractional-volume
weighted average of the 10 constituent molecular weights. -/
def m_weighted_average_spec : ℝ :=
  (∑ i in Finset.range 10, m_i i * f_i i) / (∑ i in Finset.range 10, f_i i)

end

end Atmosphere

namespace WGS84

noncomputable section

/-- [m] equatorial radius. -/
def a : ℝ := 6378137.0

/-- [-] ellipsoid flattening. -/
def f : ℝ := 1.0 / 298.257223563

/-- [m] polar radius. -/
def b : ℝ := 6356752.3142

/-- [m^2] equatorial radius squared. -/
def a2 : ℝ := a * a

/-- [m^2] polar radius squared. -/
def b2 : ℝ := b * b

/-- [-] ellipsoid first eccentricity squared. -/
def e2 : ℝ := 6.6943799901400e-3

/-- [-] ellipsoid second eccentricity squared. -/
def ep2 : ℝ := 6.7394967422800e-3

/-- JS `Math.atan2` on real arguments (standard quadrant convention,
`atan2 0 0 = 0`). -/
def atan2 (y x : ℝ) : ℝ :=
  if 0 < x then Real.arctan (y / x)
  else if x < 0 then
    if 0 ≤ y then Real.arctan (y / x) + Real.pi
    else Real.arctan (y / x) - Real.pi
  else
    if 0 < y then Real.pi / 2
    else if y < 0 then -(Real.pi / 2)
    else 0

/-- `WGS84.geo2wgs`: geodetic latitude/longitude/altitude to ECEF
Cartesian coordinates. -/
def geo2wgs (lat lon alt : ℝ) : ℝ × ℝ × ℝ :=
  let sinLat := Real.sin lat
  let cosLat := Real.cos lat
  let sinLon := Real.sin lon
  let cosLon := Real.cos lon
  let n := a / Real.sqrt (1.0 - e2 * (sinLat * sinLat))
  ( (n + alt) * cosLat * cosLon
  , (n + alt) * cosLat * sinLon
  , (n * (b2 / a2) + alt) * sinLat )

/-- `WGS84.wgs2geo`: Zhu's closed-form ECEF-to-geodetic conversion.  The
local `e2'` is the source's shadowing local `var e2 = a2 - b2` (linear
eccentricity squared in m^2), distinct from the ellipsoid field `e2`. -/
def wgs2geo (x y z : ℝ) : ℝ × ℝ × ℝ :=
  let z2 := z * z
  let r := Real.sqrt (x * x + y * y)
  let r2 := r * r
  let e2' := a2 - b2
  let f := 54.0 * b2 * z2
  let g := r2 + (1.0 - e2) * z2 - e2 * e2'
  let c := e2 * e2 * f * r2 / (g * g * g)
  let s := (1.0 + c + Real.sqrt (c * c + 2.0 * c)) ^ ((1.0 : ℝ) / 3.0)
  let p0 := s + 1.0 / s + 1.0
  let p := f / (3.0 * (p0 * p0) * (g * g))
  let q := Real.sqrt (1.0 + 2.0 * (e2 * e2) * p)
  let r0 := -(p * e2 * r) / (1.0 + q) +
    Real.sqrt (0.5 * a2 * (1.0 + 1.0 / q) - p * (1.0 - e2) * z2 / (q + q * q) - 0.5 * p * r2)
  let uv := r - e2 * r0
  let u := Real.sqrt (uv * uv + z2)
  let v := Real.sqrt (uv * uv + (1.0 - e2) * z2)
  let z0 := b2 * z / (a * v)
  ( Real.arctan ((z + ep2 * z0) / r)
  , atan2 y x
  , u * (1.0 - b2 / (a * v)) )

end

end WGS84

namespace Atmosphere

/-- The mean molecular weight is positive. -/
lemma m_pos : (0 : ℝ) < m := by
  norm_num [m, m_i, f_i]

/-- Layer resolution below `h_b[0]`: the troposphere branch, whose derived
gradient `-(t_0 - t_b[1]) / h_b[0]` equals `-6.5e-3` exactly. -/
lemma resolveLayer_tropo {alt : ℝ} (h : alt < 11000) :
    resolveLayer alt =
      { hb := 0, pb := 101325, tb := 288.15, lb := -6.5e-3, valid := true } := by
  unfold resolveLayer
  rw [if_pos (by norm_num [h_b]; linarith)]
  norm_num [p_b, t_b, t_0, h_b]

/-- Layer resolution on `[h_b[0], h_b[1])`: scan hit at `i = 1`. -/
lemma resolveLayer_layer1 {alt : ℝ} (h1 : 11000 ≤ alt) (h2 : alt < 20000) :
    resolveLayer alt =
      { hb := 11000, pb := 22632, tb := 216.65, lb := 0, valid := true } := by
  unfold resolveLayer
  rw [if_neg (by norm_num [h_b]; linarith), if_pos (by norm_num [h_b]; linarith)]
  norm_num [h_b, p_b, t_b, l_b]

/-- Layer resolution on `[h_b[1], h_b[2])`: scan hit at `i = 2`. -/
lemma resolveLayer_layer2 {alt : ℝ} (h1 : 20000 ≤ alt) (h2 : alt < 32000) :
    resolveLayer alt =
      { hb := 20000, pb := 5474.8, tb := 216.65, lb := 1.0e-3, valid := true } := by
  unfold resolveLayer
  rw [if_neg (by norm_num [h_b]; linarith), if_neg (by norm_num [h_b]; linarith),
    if_pos (by norm_num [h_b]; linarith)]
  norm_num [h_b, p_b, t_b, l_b]

/-- Layer resolution on `[h_b[2], h_b[3])`: scan hit at `i = 3`. -/
lemma resolveLayer_layer3 {alt : ℝ} (h1 : 32000 ≤ alt) (h2 : alt < 47000) :
    resolveLayer alt =
      { hb := 32000, pb := 868.01, tb := 228.65, lb := 2.8e-3, valid := true } := by
  unfold resolveLayer
  rw [if_neg (by norm_num [h_b]; linarith), if_neg (by norm_num [h_b]; linarith),
    if_neg (by norm_num [h_b]; linarith), if_pos (by norm_num [h_b]; linarith)]
  norm_num [h_b, p_b, t_b, l_b]

/-- Layer resolution on `[h_b[3], h_b[4])`: scan hit at `i = 4`. -/
lemma resolveLayer_layer4 {alt : ℝ} (h1 : 47000 ≤ alt) (h2 : alt < 51000) :
    resolveLayer alt =
      { hb := 47000, pb := 110.9, tb := 270.65, lb := 0, valid := true } := by
  unfold resolveLayer
  rw [if_neg (by norm_num [h_b]; linarith), if_neg (by norm_num [h_b]; linarith),
    if_neg (by norm_num [h_b]; linarith), if_neg (by norm_num [h_b]; linarith),
    if_pos (by norm_num [h_b]; linarith)]
  norm_num [h_b, p_b, t_b, l_b]

/-- Layer resolution on `[h_b[4], h_b[5])`: scan hit at `i = 5`. -/
lemma resolveLayer_layer5 {alt : ℝ} (h1 : 51000 ≤ alt) (h2 : alt < 71000) :
    resolveLayer alt =
      { hb := 51000, pb := 66.938, tb := 270.65, lb := -2.8e-3, valid := true } := by
  unfold resolveLayer
  rw [if_neg (by norm_num [h_b]; linarith), if_neg (by norm_num [h_b]; linarith),
    if_neg (by norm_num [h_b]; linarith), if_neg (by norm_num [h_b]; linarith),
    if_neg (by norm_num [h_b]; linarith), if_pos (by norm_num [h_b]; linarith)]
  norm_num [h_b, p_b, t_b, l_b]

/-- Layer resolution on `[h_b[5], h_b[6])`: scan hit at `i = 6`. -/
lemma resolveLayer_layer6 {alt : ℝ} (h1 : 71000 ≤ alt) (h2 : alt < 84852) :
    resolveLayer alt =
      { hb := 71000, pb := 3.9564, tb := 214.65, lb := -2.0e-3, valid := true } := by
  unfold resolveLayer
  rw [if_neg (by norm_num [h_b]; linarith), if_neg (by norm_num [h_b]; linarith),
    if_neg (by norm_num [h_b]; linarith), if_neg (by norm_num [h_b]; linarith),
    if_neg (by norm_num [h_b]; linarith), if_neg (by norm_num [h_b]; linarith),
    if_pos (by norm_num [h_b]; linarith)]
  norm_num [h_b, p_b, t_b, l_b]

/-- Layer resolution at or above `h_b[6]`: no scan comparison fires, the
seeded values survive and `valid` stays `false`. -/
lemma resolveLayer_fallback {alt : ℝ} (h : 84852 ≤ alt) :
    resolveLayer alt =
      { hb := 71000, pb := 3.9564, tb := 214.65, lb := 0, valid := false } := by
  unfold resolveLayer
  rw [if_neg (by norm_num [h_b]; linarith), if_neg (by norm_num [h_b]; linarith),
    if_neg (by norm_num [h_b]; linarith), if_neg (by norm_num [h_b]; linarith),
    if_neg (by norm_num [h_b]; linarith), if_neg (by norm_num [h_b]; linarith),
    if_neg (by norm_num [h_b]; linarith)]
  norm_num [h_b, p_b, t_b]

/-- A validly resolved layer pins the altitude into one of the seven
half-open bands of the model. -/
lemma resolveLayer_valid_cases {alt : ℝ} (h : (resolveLayer alt).valid = true) :
    alt < 11000 ∨ (11000 ≤ alt ∧ alt < 20000) ∨ (20000 ≤ alt ∧ alt < 32000) ∨
    (32000 ≤ alt ∧ alt < 47000) ∨ (47000 ≤ alt ∧ alt < 51000) ∨
    (51000 ≤ alt ∧ alt < 71000) ∨ (71000 ≤ alt ∧ alt < 84852) := by
  rcases lt_or_le alt 11000 with h0 | h0
  · exact Or.inl h0
  rcases lt_or_le alt 20000 with h1 | h1
  · exact Or.inr (Or.inl ⟨h0, h1⟩)
  rcases lt_or_le alt 32000 with h2 | h2
  · exact Or.inr (Or.inr (Or.inl ⟨h1, h2⟩))
  rcases lt_or_le alt 47000 with h3 | h3
  · exact Or.inr (Or.inr (Or.inr (Or.inl ⟨h2, h3⟩)))
  rcases lt_or_le alt 51000 with h4 | h4
  · exact Or.inr (Or.inr (Or.inr (Or.inr (Or.inl ⟨h3, h4⟩))))
  rcases lt_or_le alt 71000 with h5 | h5
  · exact Or.inr (Or.inr (Or.inr (Or.inr (Or.inr (Or.inl ⟨h4, h5⟩)))))
  rcases lt_or_le alt 84852 with h6 | h6
  · exact Or.inr (Or.inr (Or.inr (Or.inr (Or.inr (Or.inr ⟨h5, h6⟩)))))
  · rw [resolveLayer_fallback h6] at h
    simp at h

/-- `update` propagates the `valid` flag of a valid resolution. -/
lemma update_valid_of_resolve {alt hb0 pb0 tb0 lb0 : ℝ}
    (halt : ¬ alt > h_b 6)
    (hres : resolveLayer alt =
      { hb := hb0, pb := pb0, tb := tb0, lb := lb0, valid := true }) :
    (update alt).valid = true := by
  unfold update
  rw [if_neg halt, hres]
  simp

/-- The temperature computed by `update` from a valid resolution. -/
lemma update_temp_of_resolve {alt hb0 pb0 tb0 lb0 : ℝ}
    (halt : ¬ alt > h_b 6)
    (hres : resolveLayer alt =
      { hb := hb0, pb := pb0, tb := tb0, lb := lb0, valid := true }) :
    (update alt).temp = tb0 + lb0 * (alt - hb0) := by
  unfold update
  rw [if_neg halt, hres]
  simp

/-- The pressure computed by `update` from a valid resolution: the
gradient-selected branch, exponential when `|lb| < 1e-6`, power law
otherwise. -/
lemma update_press_of_resolve {alt hb0 pb0 tb0 lb0 : ℝ}
    (halt : ¬ alt > h_b 6)
    (hres : resolveLayer alt =
      { hb := hb0, pb := pb0, tb := tb0, lb := lb0, valid := true }) :
    (update alt).press =
      if |lb0| < 1.0e-6 then
        pb0 * Real.exp (-(wgs_g * m * (alt - hb0)) / (r * tb0))
      else
        pb0 * (tb0 / (tb0 + lb0 * (alt - hb0))) ^ ((wgs_g * m) / (r * lb0)) := by
  unfold update
  rw [if_neg halt, hres]
  simp

end Atmosphere

/-- C5: at altitude exactly 11000 m the evaluation is valid and returns
216.65 K: 11000 is not `< h_b[0]`, so the scan resolves layer 1 with
`tb = t_b[1] = 216.65` and `delta_h = 0`. -/
theorem atmos_tropopause_boundary :
    (Atmosphere.update 11000).valid = true ∧
    (Atmosphere.update 11000).temp = 216.65 := by
  unfold Atmosphere.update Atmosphere.resolveLayer
  norm_num [Atmosphere.h_b, Atmosphere.t_b, Atmosphere.l_b, Atmosphere.p_b]

/-- Claim C1 (code evaluation at the failing input): at altitude exactly
84852.0 m — equal to `h_b[6]` — the guard `alt > h_b[6]` does not fire,
but no scan comparison fires either and nothing sets `valid`, so
`update` returns the invalid all-zero state instead of a result computed
from the pre-seeded fallback values. -/
theorem atmos_top_boundary_code_result :
    (Atmosphere.update 84852).valid = false ∧
    (Atmosphere.update 84852).temp = 0 ∧
    (Atmosphere.update 84852).press = 0 ∧
    (Atmosphere.update 84852).dens = 0 ∧
    (Atmosphere.update 84852).sound = 0 ∧
    (Atmosphere.update 84852).visc = 0 ∧
    (Atmosphere.update 84852).kinViscosity = 0 := by
  unfold Atmosphere.update Atmosphere.resolveLayer
  norm_num [Atmosphere.h_b, Atmosphere.p_b, Atmosphere.t_b, Atmosphere.l_b,
    Atmosphere.zeroState]

/-- Claim C2 counterexample: altitude 30000 m lies in the 20000–32000 m
layer, yet the returned temperature is 226.65 K, not the constant
216.65 K: that layer's gradient is `l_b[2] = 1.0e-3`, not zero. -/
theorem atmos_layer20_32_not_isothermal_at_30000 :
    (20000 : ℝ) ≤ 30000 ∧ (30000 : ℝ) ≤ 32000 ∧
    (Atmosphere.update 30000).temp ≠ 216.65 := by
  refine ⟨by norm_num, by norm_num, ?_⟩
  have halt : ¬ (30000 : ℝ) > Atmosphere.h_b 6 := by norm_num [Atmosphere.h_b]
  have hres : Atmosphere.resolveLayer 30000 =
      { hb := 20000, pb := 5474.8, tb := 216.65, lb := 1.0e-3, valid := true } :=
    Atmosphere.resolveLayer_layer2 (by norm_num) (by norm_num)
  rw [Atmosphere.update_temp_of_resolve halt hres]
  norm_num

/-- Claim C2 (amended): the gradient-zero layer is the 11000–20000 m one.
For altitudes in `[11000, 20000)` the resolved gradient is `l_b[1] = 0`,
the temperature is the constant 216.65 K, the pressure comes from the
exponential (barometric) branch, and pressure strictly decreases with
increasing altitude. -/
theorem atmos_isothermal_layer_temp_press (a1 a2 : ℝ)
    (h1 : 11000 ≤ a1) (h12 : a1 < a2) (h2 : a2 < 20000) :
    (Atmosphere.update a1).temp = 216.65 ∧
    (Atmosphere.update a2).temp = 216.65 ∧
    (Atmosphere.update a1).press =
      22632 * Real.exp (-(Atmosphere.wgs_g * Atmosphere.m * (a1 - 11000)) /
        (Atmosphere.r * 216.65)) ∧
    (Atmosphere.update a2).press < (Atmosphere.update a1).press := by
  have hK : (0 : ℝ) < Atmosphere.wgs_g * Atmosphere.m :=
    mul_pos (by norm_num [Atmosphere.wgs_g]) Atmosphere.m_pos
  have hD : (0 : ℝ) < Atmosphere.r * 216.65 := by norm_num [Atmosphere.r]
  have halt1 : ¬ a1 > Atmosphere.h_b 6 := by norm_num [Atmosphere.h_b]; linarith
  have halt2 : ¬ a2 > Atmosphere.h_b 6 := by norm_num [Atmosphere.h_b]; linarith
  have hres1 := Atmosphere.resolveLayer_layer1 h1 (by linarith : a1 < 20000)
  have hres2 := Atmosphere.resolveLayer_layer1 (by linarith : 11000 ≤ a2) h2
  have ht1 := Atmosphere.update_temp_of_resolve halt1 hres1
  have ht2 := Atmosphere.update_temp_of_resolve halt2 hres2
  have hp1 := Atmosphere.update_press_of_resolve halt1 hres1
  have hp2 := Atmosphere.update_press_of_resolve halt2 hres2
  rw [if_pos (by norm_num : |(0 : ℝ)| < 1.0e-6)] at hp1 hp2
  refine ⟨by rw [ht1]; ring, by rw [ht2]; ring, hp1, ?_⟩
  rw [hp1, hp2]
  have hexp : Real.exp (-(Atmosphere.wgs_g * Atmosphere.m * (a2 - 11000)) /
      (Atmosphere.r * 216.65)) <
      Real.exp (-(Atmosphere.wgs_g * Atmosphere.m * (a1 - 11000)) /
      (Atmosphere.r * 216.65)) := by
    apply Real.exp_lt_exp.mpr
    rw [div_lt_div_iff₀ hD hD]
    have hstep : Atmosphere.wgs_g * Atmosphere.m * (a1 - 11000) <
        Atmosphere.wgs_g * Atmosphere.m * (a2 - 11000) :=
      mul_lt_mul_of_pos_left (by linarith) hK
    nlinarith [mul_lt_mul_of_pos_right hstep hD]
  exact mul_lt_mul_of_pos_left hexp (by norm_num)

/-- Claim C2 witness: the amended statement at `a1 = 12000`, `a2 = 15000`. -/
theorem atmos_isothermal_layer_temp_press_witness :
    (11000 : ℝ) ≤ 12000 ∧ (12000 : ℝ) < 15000 ∧ (15000 : ℝ) < 20000 ∧
    ((Atmosphere.update 12000).temp = 216.65 ∧
     (Atmosphere.update 15000).temp = 216.65 ∧
     (Atmosphere.update 12000).press =
       22632 * Real.exp (-(Atmosphere.wgs_g * Atmosphere.m * (12000 - 11000)) /
         (Atmosphere.r * 216.65)) ∧
     (Atmosphere.update 15000).press < (Atmosphere.update 12000).press) :=
  ⟨by norm_num, by norm_num, by norm_num,
    atmos_isothermal_layer_temp_press 12000 15000 (by norm_num) (by norm_num)
      (by norm_num)⟩

/-- Claim C3 counterexample: at 80000 m — strictly between `h_b[5]` and
`h_b[6]` — the resolved gradient is `l_b[6] = -2.0e-3`, not the claimed
fallback `lb = 0`. -/
theorem atmos_fallback_lb_claim_false_at_80000 :
    (71000 : ℝ) < 80000 ∧ (80000 : ℝ) < 84852 ∧
    (Atmosphere.resolveLayer 80000).lb ≠ 0 := by
  refine ⟨by norm_num, by norm_num, ?_⟩
  rw [Atmosphere.resolveLayer_layer6 (by norm_num) (by norm_num)]
  norm_num

/-- Claim C3 (amended): for every altitude strictly between `h_b[5]` and
`h_b[6]` the scan matches at `i = 6`, so the parameters are
`hb = h_b[5] = 71000`, `pb = p_b[6] = 3.9564`, `tb = t_b[6] = 214.65`
and `lb = l_b[6] = -2.0e-3` (not the seeded fallback gradient 0). -/
theorem atmos_layer_71000_84852_params (alt : ℝ)
    (h1 : 71000 < alt) (h2 : alt < 84852) :
    Atmosphere.resolveLayer alt =
      { hb := 71000, pb := 3.9564, tb := 214.65, lb := -2.0e-3,
        valid := true } :=
  Atmosphere.resolveLayer_layer6 (le_of_lt h1) h2

/-- Claim C3 witness: the amended statement at 80000 m. -/
theorem atmos_layer_71000_84852_params_witness :
    (71000 : ℝ) < 80000 ∧ (80000 : ℝ) < 84852 ∧
    Atmosphere.resolveLayer 80000 =
      { hb := 71000, pb := 3.9564, tb := 214.65, lb := -2.0e-3,
        valid := true } :=
  ⟨by norm_num, by norm_num,
    atmos_layer_71000_84852_params 80000 (by norm_num) (by norm_num)⟩

/-- Claim C4: for every altitude strictly above `h_b[6] = 84852` m the
early return leaves the invalid all-zero state. -/
theorem atmos_out_of_range_invalid (alt : ℝ) (h : 84852 < alt) :
    (Atmosphere.update alt).valid = false ∧
    (Atmosphere.update alt).temp = 0 ∧
    (Atmosphere.update alt).press = 0 ∧
    (Atmosphere.update alt).dens = 0 ∧
    (Atmosphere.update alt).sound = 0 ∧
    (Atmosphere.update alt).visc = 0 ∧
    (Atmosphere.update alt).kinViscosity = 0 := by
  unfold Atmosphere.update
  rw [if_pos (by norm_num [Atmosphere.h_b]; linarith)]
  norm_num [Atmosphere.zeroState]

/-- Claim C4 witness: the out-of-range result at 90000 m. -/
theorem atmos_out_of_range_invalid_witness :
    (84852 : ℝ) < 90000 ∧ (Atmosphere.update 90000).valid = false ∧
    (Atmosphere.update 90000).press = 0 :=
  ⟨by norm_num, (atmos_out_of_range_invalid 90000 (by norm_num)).1,
    (atmos_out_of_range_invalid 90000 (by norm_num)).2.2.1⟩

/-- Claim C7: for every validly resolved altitude, the pressure branch is
selected solely by the resolved layer gradient: the exponential
barometric form fires exactly when the gradient is numerically zero —
for every reachable layer `|lb| < 1e-6` coincides with `lb = 0` — and
otherwise `|lb| ≥ 1e-6` and the power-law form with its division by `lb`
is used, so that division never happens with a zero gradient. -/
theorem atmos_pressure_branch_dichotomy (alt : ℝ)
    (h : (Atmosphere.resolveLayer alt).valid = true) :
    ((Atmosphere.resolveLayer alt).lb = 0 ∧
      (Atmosphere.update alt).press = (Atmosphere.resolveLayer alt).pb *
        Real.exp (-(Atmosphere.wgs_g * Atmosphere.m *
            (alt - (Atmosphere.resolveLayer alt).hb)) /
          (Atmosphere.r * (Atmosphere.resolveLayer alt).tb))) ∨
    (1.0e-6 ≤ |(Atmosphere.resolveLayer alt).lb| ∧
      (Atmosphere.update alt).press = (Atmosphere.resolveLayer alt).pb *
        ((Atmosphere.resolveLayer alt).tb /
          ((Atmosphere.resolveLayer alt).tb + (Atmosphere.resolveLayer alt).lb *
            (alt - (Atmosphere.resolveLayer alt).hb))) ^
          ((Atmosphere.wgs_g * Atmosphere.m) /
            (Atmosphere.r * (Atmosphere.resolveLayer alt).lb))) := by
  rcases Atmosphere.resolveLayer_valid_cases h with
    h0 | ⟨ha, hb⟩ | ⟨ha, hb⟩ | ⟨ha, hb⟩ | ⟨ha, hb⟩ | ⟨ha, hb⟩ | ⟨ha, hb⟩
  · have halt : ¬ alt > Atmosphere.h_b 6 := by norm_num [Atmosphere.h_b]; linarith
    have hres := Atmosphere.resolveLayer_tropo h0
    rw [Atmosphere.update_press_of_resolve halt hres, hres]
    right
    norm_num [abs_of_pos, abs_of_neg]
  · have halt : ¬ alt > Atmosphere.h_b 6 := by norm_num [Atmosphere.h_b]; linarith
    have hres := Atmosphere.resolveLayer_layer1 ha hb
    rw [Atmosphere.update_press_of_resolve halt hres, hres]
    left
    norm_num
  · have halt : ¬ alt > Atmosphere.h_b 6 := by norm_num [Atmosphere.h_b]; linarith
    have hres := Atmosphere.resolveLayer_layer2 ha hb
    rw [Atmosphere.update_press_of_resolve halt hres, hres]
    right
    norm_num [abs_of_pos, abs_of_neg]
  · have halt : ¬ alt > Atmosphere.h_b 6 := by norm_num [Atmosphere.h_b]; linarith
    have hres := Atmosphere.resolveLayer_layer3 ha hb
    rw [Atmosphere.update_press_of_resolve halt hres, hres]
    right
    norm_num [abs_of_pos, abs_of_neg]
  · have halt : ¬ alt > Atmosphere.h_b 6 := by norm_num [Atmosphere.h_b]; linarith
    have hres := Atmosphere.resolveLayer_layer4 ha hb
    rw [Atmosphere.update_press_of_resolve halt hres, hres]
    left
    norm_num
  · have halt : ¬ alt > Atmosphere.h_b 6 := by norm_num [Atmosphere.h_b]; linarith
    have hres := Atmosphere.resolveLayer_layer5 ha hb
    rw [Atmosphere.update_press_of_resolve halt hres, hres]
    right
    norm_num [abs_of_pos, abs_of_neg]
  · have halt : ¬ alt > Atmosphere.h_b 6 := by norm_num [Atmosphere.h_b]; linarith
    have hres := Atmosphere.resolveLayer_layer6 ha hb
    rw [Atmosphere.update_press_of_resolve halt hres, hres]
    right
    norm_num [abs_of_pos, abs_of_neg]

/-- Claim C7 witness: the dichotomy at 25000 m (a power-law layer). -/
theorem atmos_pressure_branch_dichotomy_witness :
    (Atmosphere.resolveLayer 25000).valid = true ∧
    (((Atmosphere.resolveLayer 25000).lb = 0 ∧
      (Atmosphere.update 25000).press = (Atmosphere.resolveLayer 25000).pb *
        Real.exp (-(Atmosphere.wgs_g * Atmosphere.m *
            (25000 - (Atmosphere.resolveLayer 25000).hb)) /
          (Atmosphere.r * (Atmosphere.resolveLayer 25000).tb))) ∨
    (1.0e-6 ≤ |(Atmosphere.resolveLayer 25000).lb| ∧
      (Atmosphere.update 25000).press = (Atmosphere.resolveLayer 25000).pb *
        ((Atmosphere.resolveLayer 25000).tb /
          ((Atmosphere.resolveLayer 25000).tb + (Atmosphere.resolveLayer 25000).lb *
            (25000 - (Atmosphere.resolveLayer 25000).hb))) ^
          ((Atmosphere.wgs_g * Atmosphere.m) /
            (Atmosphere.r * (Atmosphere.resolveLayer 25000).lb)))) := by
  have hres : Atmosphere.resolveLayer 25000 =
      { hb := 20000, pb := 5474.8, tb := 216.65, lb := 1.0e-3, valid := true } :=
    Atmosphere.resolveLayer_layer2 (by norm_num) (by norm_num)
  have h : (Atmosphere.resolveLayer 25000).valid = true := by rw [hres]
  exact ⟨h, atmos_pressure_branch_dichotomy 25000 h⟩

/-- Claim C8: the mean molecular weight `m` of the constructor equals the
fractional-volume-weighted average of the 10 constituent molecular
weights; being a plain constant of the embedding it is the same in every
evaluation. -/
theorem atmos_mean_molecular_weight_avg :
    Atmosphere.m = Atmosphere.m_weighted_average_spec := by
  norm_num [Atmosphere.m, Atmosphere.m_weighted_average_spec,
    Finset.sum_range_succ, Atmosphere.m_i, Atmosphere.f_i]

/-- Claim C9: the forward transform at lat = 0, lon = 0, alt = 0 returns
exactly the equatorial radius on the x axis. -/
theorem wgs84_geo2wgs_origin :
    WGS84.geo2wgs 0 0 0 = (6378137.0, 0, 0) := by
  unfold WGS84.geo2wgs
  norm_num [WGS84.a, WGS84.e2, WGS84.b2, WGS84.a2]

/-- Claim C10: every altitude strictly below `h_b[0] = 11000` m — with no
lower bound, so negative altitudes included — is valid and resolved with
the troposphere parameters `hb = 0`, `pb = p_b[0] = 101325`,
`tb = t_0 = 288.15` and derived gradient
`-(t_0 - t_b[1]) / h_b[0] = -6.5e-3`, from which the temperature is
computed. -/
theorem atmos_troposphere_no_lower_bound (alt : ℝ) (h : alt < 11000) :
    (Atmosphere.update alt).valid = true ∧
    Atmosphere.resolveLayer alt =
      { hb := 0, pb := 101325, tb := 288.15, lb := -6.5e-3, valid := true } ∧
    (Atmosphere.update alt).temp = 288.15 - 6.5e-3 * alt := by
  have halt : ¬ alt > Atmosphere.h_b 6 := by norm_num [Atmosphere.h_b]; linarith
  have hres := Atmosphere.resolveLayer_tropo h
  refine ⟨Atmosphere.update_valid_of_resolve halt hres, hres, ?_⟩
  rw [Atmosphere.update_temp_of_resolve halt hres]
  ring

/-- Claim C10 witness: the troposphere result at the negative altitude
−500 m. -/
theorem atmos_troposphere_no_lower_bound_witness :
    (-500 : ℝ) < 11000 ∧
    ((Atmosphere.update (-500)).valid = true ∧
     Atmosphere.resolveLayer (-500) =
       { hb := 0, pb := 101325, tb := 288.15, lb := -6.5e-3, valid := true } ∧
     (Atmosphere.update (-500)).temp = 288.15 - 6.5e-3 * (-500)) :=
  ⟨by norm_num, atmos_troposphere_no_lower_bound (-500) (by norm_num)⟩
